import Mathlib

/-
Verification development for the harinath_binance_bot repository.

The Python sources are shallowly embedded as Lean definitions:
  - Python Decimal values are modelled exactly: a Decimal carries a
    coefficient and an exponent (Dec below); its numeric value is a
    rational.  Where only the numeric value of a Decimal matters the
    embedding works directly with rationals.
  - dict fields obtained with .get are modelled as Option values, with
    none standing for an absent or falsy field.
  - raised exceptions are modelled with Except; functions whose
    polling loops depend on an unbounded environment return Option,
    with none meaning the environment trace did not resolve the loop.
  - the gateway (BinanceFuturesClient) is modelled as an environment
    record supplying the response of each network call; the calls a
    function issues (leg placements, cancellations) are returned as an
    explicit trace so that claims about issued calls can be stated.
-/

/-- Model of a Python Decimal: coefficient times ten to the exponent.
    Dec.mk 10 (-3) models Decimal("0.010"), whose as_tuple exponent is -3. -/
structure Dec where
  c : Int
  e : Int
deriving DecidableEq, Repr

/-- Ten raised to an integer power, as a rational. -/
def pow10 (e : Int) : ℚ :=
  if 0 ≤ e then (10 : ℚ) ^ e.toNat else ((10 : ℚ) ^ (-e).toNat)⁻¹

/-- Numeric value of a Decimal. -/
def Dec.val (d : Dec) : ℚ := d.c * pow10 d.e

/-- Truncation toward zero, the rounding used by Decimal floor division
    and by quantize with ROUND_DOWN. -/
def truncZ (x : ℚ) : Int := if 0 ≤ x then ⌊x⌋ else ⌈x⌉

/-- From src/utils.py round_price_to_tick: returns price when tick is
    zero, otherwise (price // tick) * tick with Decimal floor division,
    which truncates the quotient toward zero. -/
def round_price_to_tick (price : ℚ) (tick : ℚ) : ℚ :=
  if tick = 0 then price else truncZ (price / tick) * tick

/-- Model of the Decimal remainder operator: p - (p // tick) * tick,
    with the quotient truncated toward zero. -/
def decMod (p tick : ℚ) : ℚ := p - truncZ (p / tick) * tick

/-- From src/utils.py round_down_qty: returns qty when step is zero,
    otherwise qty.quantize(step, ROUND_DOWN), which rescales qty to the
    exponent of step, rounding toward zero.  The result is a multiple of
    ten to the step exponent, not in general a multiple of step. -/
def round_down_qty (qty : ℚ) (step : Dec) : ℚ :=
  if step.val = 0 then qty else truncZ (qty * pow10 (-step.e)) * pow10 step.e

/-- Order side after validate_side. -/
inductive Side where
  | BUY
  | SELL
deriving DecidableEq, Repr

/-- Opposite side, from the oco.py expression picking SELL when the
    entry side is BUY and BUY otherwise. -/
def Side.opposite : Side → Side
  | .BUY => .SELL
  | .SELL => .BUY

/-- From src/advanced/stop_orders.py _validate_stop_vs_market.  Returns
    true when the check passes and false when the function would raise
    ValueError.  The buffer is the tick when the tick is nonzero and the
    Decimal constant 0.0001 otherwise. -/
def validateStopVsMarket (side : Side) (stop_price current tick : ℚ) : Bool :=
  let buffer : ℚ := if tick ≠ 0 then tick else 1 / 10000
  match side with
  | .BUY => decide (stop_price > current + buffer)
  | .SELL => decide (stop_price < current - buffer)

/-- From src/market_orders.py place_market_order lines 18-21: the
    requested quantity is raised to minQty when strictly below it, then
    rounded down to the step; the result is the quantity submitted. -/
def market_order_qty (qty minQty : ℚ) (step : Dec) : ℚ :=
  let q := if qty < minQty then minQty else qty
  round_down_qty q step

/-- From src/limit_orders.py place_limit_order lines 21-24: same
    quantity computation as the market order path. -/
def limit_order_qty (qty minQty : ℚ) (step : Dec) : ℚ :=
  let q := if qty < minQty then minQty else qty
  round_down_qty q step

/-- Python truthiness of an optional integer: None and 0 are falsy. -/
def truthyIntOpt : Option Int → Bool
  | none => false
  | some n => n != 0

/-- Python truthiness of an optional string: None and the empty string
    are falsy. -/
def truthyStrOpt : Option String → Bool
  | none => false
  | some s => !s.isEmpty

/-- From src/client_wrapper.py BinanceFuturesClient.cancel_order lines
    104-112: builds the request parameters, or raises ValueError before
    any network request when neither id is truthy.  The signed request
    is only issued on the ok branch. -/
def cancel_order_params (symbol : String) (orderId : Option Int)
    (clientOrderId : Option String) : Except String (List (String × String)) :=
  if truthyIntOpt orderId then
    .ok [("symbol", symbol), ("orderId", toString (orderId.getD 0))]
  else if truthyStrOpt clientOrderId then
    .ok [("symbol", symbol), ("origClientOrderId", clientOrderId.getD "")]
  else
    .error "orderId or clientOrderId required"

/-- View of an order dict returned by the gateway.  Fields read with
    .get are Options; none models an absent or falsy field.  The
    quantity fields arrive as JSON strings; none models an absent or
    empty value, some q a value that parses to the rational q. -/
structure OrderView where
  orderId : Option Int
  status : Option String
  executedQty : Option ℚ
  origQty : Option ℚ
deriving DecidableEq, Repr

/-- Model of the Python str.upper method, uppercasing each character;
    exact on the ASCII status strings the exchange returns. -/
def pyUpper (s : String) : String := String.mk (s.data.map Char.toUpper)

/-- The status test used throughout oco.py:
    (o.get("status") or "").upper() == "FILLED". -/
def statusFilled (o : OrderView) : Bool :=
  pyUpper (o.status.getD "") == "FILLED"

/-- From src/advanced/oco.py _poll_order_filled.  The environment gives
    the sequence of get_order observations, each paired with whether the
    timeout check (time elapsed greater than timeout) fires right after
    it.  Returns the observation the loop exits with; none when the
    trace ends before the loop does. -/
def pollOrderFilled : List (OrderView × Bool) → Option OrderView
  | [] => none
  | (o, timedOut) :: rest =>
    if statusFilled o then some o
    else if timedOut then some o
    else pollOrderFilled rest

/-- Role of the winning exit leg in the race result. -/
inductive LegRole where
  | TP
  | SL
deriving DecidableEq, Repr

/-- One iteration of the race-monitoring loop of place_oco: the two
    get_order observations, whether a cancel_order issued in this
    iteration would raise, and whether the timeout check fires. -/
structure RaceStep where
  tpOrder : OrderView
  slOrder : OrderView
  cancelRaises : Bool
  timedOut : Bool
deriving DecidableEq, Repr

/-- Result of the race loop: the winner (role and observed order) and
    the trace of cancel_order calls as (target orderId, raised) pairs.
    A raised cancellation is swallowed by the try/except pass. -/
structure RaceOutcome where
  winner : Option (LegRole × OrderView)
  cancelCalls : List (Option Int × Bool)
deriving DecidableEq, Repr

/-- From src/advanced/oco.py place_oco lines 98-114: each iteration
    fetches both legs, checks the take-profit status first, then the
    stop-loss status, then the timeout.  On a fill it cancels the other
    leg inside try/except pass and breaks.  Returns none when the trace
    ends before the loop does. -/
def raceLoop (tpId slId : Option Int) : List RaceStep → Option RaceOutcome
  | [] => none
  | s :: rest =>
    if statusFilled s.tpOrder then
      some ⟨some (LegRole.TP, s.tpOrder), [(slId, s.cancelRaises)]⟩
    else if statusFilled s.slOrder then
      some ⟨some (LegRole.SL, s.slOrder), [(tpId, s.cancelRaises)]⟩
    else if s.timedOut then
      some ⟨none, []⟩
    else
      raceLoop tpId slId rest

/-- A leg placement request submitted to the gateway by
    _place_limit_leg_with_reduce_fallback. -/
structure LegReq where
  side : Side
  quantity : ℚ
  price : ℚ
  reduceOnly : Bool
deriving DecidableEq, Repr

/-- From src/advanced/oco.py _place_limit_leg_with_reduce_fallback:
    when prefer_reduce_only holds, a reduce-only placement is tried
    first; if the exchange rejects it (reduceRaises) a warning is logged
    and the order is re-sent without reduce-only.  Returns the response
    of the successful attempt, the used flag, and the trace of placement
    requests issued.  The final attempt is assumed to succeed; a
    transport failure there would propagate and end the run, which no
    claim concerns. -/
def placeLegWithReduceFallback (side : Side) (quantity price : ℚ)
    (preferReduce reduceRaises : Bool) (resp : OrderView) :
    OrderView × Bool × List LegReq :=
  if preferReduce then
    if reduceRaises then
      (resp, false, [⟨side, quantity, price, true⟩, ⟨side, quantity, price, false⟩])
    else
      (resp, true, [⟨side, quantity, price, true⟩])
  else
    (resp, false, [⟨side, quantity, price, false⟩])

/-- Entry order type after the upper-case comparison in place_oco. -/
inductive EntryType where
  | MARKET
  | LIMIT
deriving DecidableEq, Repr

/-- Distinct raise sites of place_oco: ValueError from the validators
    or the missing LIMIT entry price, RuntimeError for missing symbol
    info, missing entry orderId, and the entry-not-filled timeout. -/
inductive OcoError where
  | validation : String → OcoError
  | symbolInfoMissing : OcoError
  | noOrderId : OcoError
  | entryNotFilled : OcoError
deriving DecidableEq, Repr

/-- Environment of one place_oco run: every gateway response the
    function may consume.  filters holds the parsed (stepSize, tickSize)
    pair, none when get_exchange_info returns no symbols entry. -/
structure OcoEnv where
  filters : Option (Dec × ℚ)
  entryResp : OrderView
  entryPolls : List (OrderView × Bool)
  position : ℚ
  tpReduceRaises : Bool
  slReduceRaises : Bool
  tpResp : OrderView
  slResp : OrderView
  raceSteps : List RaceStep
deriving Repr

/-- The dict place_oco returns: entry, both leg responses, the winner
    of the race (always none in detach mode, whose dict has no winner
    key), and the detached flag. -/
structure OcoResult where
  entry : OrderView
  tp : OrderView
  sl : OrderView
  winner : Option (LegRole × OrderView)
  detached : Bool
deriving DecidableEq, Repr

deriving instance DecidableEq for Except

/-- One place_oco run: its result or raised error, together with the
    trace of exit-leg placement requests and cancellation calls issued
    to the gateway. -/
structure OcoRun where
  result : Except OcoError OcoResult
  legCalls : List LegReq
  cancelCalls : List (Option Int × Bool)
deriving DecidableEq, Repr

/-- The executedQty fallback chain of place_oco line 85:
    executedQty or origQty or qty_dec. -/
def executedOrFallback (o : OrderView) (qty_dec : ℚ) : ℚ :=
  match o.executedQty with
  | some x => x
  | none =>
    match o.origQty with
    | some y => y
    | none => qty_dec

/-- Detach branch of place_oco (lines 70-79): places both legs with the
    quantized requested quantity qty_dec and returns at once. -/
def ocoDetachBranch (side : Side) (qty_dec tp_price sl_price tick : ℚ)
    (env : OcoEnv) (entry_resp : OrderView) : OcoRun :=
  let leg_side := side.opposite
  let tp_dec := round_price_to_tick tp_price tick
  let sl_dec := round_price_to_tick sl_price tick
  let prefer := (side = Side.BUY ∧ env.position > 0) ∨ (side = Side.SELL ∧ env.position < 0)
  let tpR := placeLegWithReduceFallback leg_side qty_dec tp_dec (decide prefer) env.tpReduceRaises env.tpResp
  let slR := placeLegWithReduceFallback leg_side qty_dec sl_dec (decide prefer) env.slReduceRaises env.slResp
  ⟨.ok ⟨entry_resp, tpR.1, slR.1, none, true⟩, tpR.2.2 ++ slR.2.2, []⟩

/-- Non-detach branch of place_oco (lines 82-115): waits for the entry
    fill, fails fatally when the poll ends unfilled, sizes the legs off
    the executed quantity, places both legs and runs the race loop. -/
def ocoMonitorBranch (side : Side) (qty_dec tp_price sl_price : ℚ) (step : Dec)
    (tick : ℚ) (env : OcoEnv) : Option OcoRun :=
  match pollOrderFilled env.entryPolls with
  | none => none
  | some entry_final =>
    if ¬ statusFilled entry_final then
      some ⟨.error OcoError.entryNotFilled, [], []⟩
    else
      let executed_qty := executedOrFallback entry_final qty_dec
      let leg_qty := round_down_qty executed_qty step
      let leg_side := side.opposite
      let tp_dec := round_price_to_tick tp_price tick
      let sl_dec := round_price_to_tick sl_price tick
      let prefer := (side = Side.BUY ∧ env.position > 0) ∨ (side = Side.SELL ∧ env.position < 0)
      let tpR := placeLegWithReduceFallback leg_side leg_qty tp_dec (decide prefer) env.tpReduceRaises env.tpResp
      let slR := placeLegWithReduceFallback leg_side leg_qty sl_dec (decide prefer) env.slReduceRaises env.slResp
      match raceLoop tpR.1.orderId slR.1.orderId env.raceSteps with
      | none => none
      | some out =>
        some ⟨.ok ⟨entry_final, tpR.1, slR.1, out.winner, false⟩, tpR.2.2 ++ slR.2.2, out.cancelCalls⟩

/-- From src/advanced/oco.py place_oco.  Validates the inputs, fetches
    the filters, quantizes the requested quantity, places the entry and
    then follows the detach or the monitor branch.  Returns none when a
    polling loop is not resolved by the environment trace. -/
def place_oco (side : Side) (qty tp_price sl_price : ℚ) (entry_type : EntryType)
    (entry_price : Option ℚ) (detach : Bool) (env : OcoEnv) : Option OcoRun :=
  if qty ≤ 0 then some ⟨.error (.validation "qty must be positive"), [], []⟩
  else if tp_price ≤ 0 then some ⟨.error (.validation "tp_price must be positive"), [], []⟩
  else if sl_price ≤ 0 then some ⟨.error (.validation "sl_price must be positive"), [], []⟩
  else
    match env.filters with
    | none => some ⟨.error OcoError.symbolInfoMissing, [], []⟩
    | some (step, tick) =>
      let qty_dec := round_down_qty qty step
      if entry_type = EntryType.LIMIT ∧ entry_price = none then
        some ⟨.error (.validation "entry_price required for LIMIT entry_type"), [], []⟩
      else
        let entry_resp := env.entryResp
        if ¬ truthyIntOpt entry_resp.orderId then
          some ⟨.error OcoError.noOrderId, [], []⟩
        else if detach then
          some (ocoDetachBranch side qty_dec tp_price sl_price tick env entry_resp)
        else
          ocoMonitorBranch side qty_dec tp_price sl_price step tick env

/-- Parameter names of BinanceFuturesClient.place_order (the second,
    effective definition at src/client_wrapper.py lines 121-123),
    besides self. -/
def place_order_params : List String :=
  ["symbol", "side", "order_type", "quantity", "price", "time_in_force",
   "reduce_only", "stop_price", "close_position", "working_type"]

/-- Parameters of place_order that carry no default value. -/
def place_order_required : List String :=
  ["symbol", "side", "order_type", "quantity"]

/-- Python keyword-call check: a keyword call binds without TypeError
    exactly when every passed keyword is a parameter name and every
    parameter without a default is passed. -/
def kwargsBind (passed : List String) : Bool :=
  passed.all (fun k => place_order_params.contains k) &&
  place_order_required.all (fun k => passed.contains k)

/-- Keywords used by the slice placement call in
    src/advanced/twap.py lines 51-56: the call passes the keyword type
    instead of order_type. -/
def twap_slice_kwargs : List String :=
  ["symbol", "side", "type", "quantity"]

/-- Return value of execute_twap, extended with the trace of order
    quantities that reached the gateway (submitted is not a key of the
    returned dict; it records issued placement calls). -/
structure TwapRun where
  executed_slices : Nat
  expected_slices : Nat
  slice_qty : ℚ
  results : List ℚ
  submitted : List ℚ
deriving DecidableEq, Repr

/-- From src/advanced/twap.py execute_twap.  Checks parts and interval,
    computes slice_qty = total_qty / parts, then runs one iteration per
    slice.  Each iteration calls place_order with twap_slice_kwargs; a
    call that does not bind raises TypeError before any request, which
    the except branch catches, logging the slice as failed and
    continuing.  gatewayOk gives, per slice, whether an issued request
    succeeds; a failed request is likewise caught and skipped. -/
def execute_twap (total_qty : ℚ) (parts interval : Int)
    (gatewayOk : Nat → Bool) : Except String TwapRun :=
  if parts < 1 then .error "parts must be >= 1"
  else if interval < 1 then .error "interval must be >= 1"
  else
    let slice_qty := total_qty / (parts : ℚ)
    let step := fun (acc : List ℚ × List ℚ) (i : Nat) =>
      if kwargsBind twap_slice_kwargs then
        if gatewayOk i then (acc.1 ++ [slice_qty], acc.2 ++ [slice_qty])
        else (acc.1, acc.2 ++ [slice_qty])
      else (acc.1, acc.2)
    let run := (List.range parts.toNat).foldl step ([], [])
    .ok ⟨run.1.length, parts.toNat, slice_qty, run.1, run.2⟩

/-- Outcome of a CLI command body: it returned normally or raised an
    exception that the top-level except of the command caught. -/
inductive BodyResult where
  | ok
  | raised
deriving DecidableEq, Repr

/-- Exit status of the market command (src/cli.py lines 20-26). -/
def exit_market : BodyResult → Nat
  | .ok => 0
  | .raised => 1

/-- Exit status of the limit command (src/cli.py lines 33-39). -/
def exit_limit : BodyResult → Nat
  | .ok => 0
  | .raised => 1

/-- Exit status of the open-orders command (src/cli.py lines 43-54). -/
def exit_open_orders : BodyResult → Nat
  | .ok => 0
  | .raised => 1

/-- Exit status of the cancel-all command (src/cli.py lines 58-82). -/
def exit_cancel_all : BodyResult → Nat
  | .ok => 0
  | .raised => 1

/-- Exit status of the inspect-pos command (src/cli.py lines 112-128). -/
def exit_inspect_pos : BodyResult → Nat
  | .ok => 0
  | .raised => 1

/-- Exit status of the filters command (src/cli.py lines 132-142). -/
def exit_filters : BodyResult → Nat
  | .ok => 0
  | .raised => 1

/-- Exit status of the oco command (src/cli.py lines 154-168). -/
def exit_oco : BodyResult → Nat
  | .ok => 0
  | .raised => 1

/-- Exit status of the stop-limit command (src/cli.py lines 189-197). -/
def exit_stop_limit : BodyResult → Nat
  | .ok => 0
  | .raised => 1

/-- Exit status of the stop-market command (src/cli.py lines 206-214). -/
def exit_stop_market : BodyResult → Nat
  | .ok => 0
  | .raised => 1

/-- Exit status of the auth-check command (src/cli.py lines 171-179):
    the except branch prints AUTH FAILED but never calls sys.exit, so
    the command returns normally and the process exits with 0. -/
def exit_auth_check : BodyResult → Nat
  | .ok => 0
  | .raised => 0

/-- Outcome of the cancel-order body: ok, or raised with the flag
    telling whether the message matched the unknown-order test of
    src/cli.py line 102 (Unknown order sent, -2011 or 400), in which
    case the inner except prints treated-as-cancelled and returns. -/
inductive CancelBody where
  | ok
  | raisedKnownGone
  | raisedOther
deriving DecidableEq, Repr

/-- Exit status of the cancel-order command (src/cli.py lines 88-108):
    exits 2 up front when neither option is truthy. -/
def exit_cancel_order (orderId : Option Int) (clientOrderId : Option String)
    (body : CancelBody) : Nat :=
  if ¬ truthyIntOpt orderId ∧ ¬ truthyStrOpt clientOrderId then 2
  else
    match body with
    | .ok => 0
    | .raisedKnownGone => 0
    | .raisedOther => 1

theorem foldl_keep {α β : Type} (l : List β) (a : α) :
    l.foldl (fun acc _ => acc) a = a := by
  induction l generalizing a with
  | nil => rfl
  | cons x xs ih => simp [ih a]

/-- C4: the claim asserts that round_down_qty always returns an exact
    multiple of the step.  The code instead quantizes to the decimal
    exponent of the step; for stepSize 0.010 (coefficient 10, exponent
    -3) and qty 0.015 it returns 0.015, which is not a multiple of
    0.010, contradicting the inline comment floor to step and the spec
    guarantee that the lot-size filter is satisfied. -/
theorem c4_round_down_qty_not_step_multiple :
    round_down_qty (15 / 1000) ⟨10, -3⟩ = 15 / 1000 ∧
    Dec.val ⟨10, -3⟩ = 1 / 100 ∧
    ¬ ∃ n : ℤ, round_down_qty (15 / 1000) ⟨10, -3⟩ = n * Dec.val ⟨10, -3⟩ := by
  have h1 : round_down_qty (15 / 1000) ⟨10, -3⟩ = 15 / 1000 := by
    simp [round_down_qty, truncZ, pow10, Dec.val]
    norm_num
  have h2 : Dec.val ⟨10, -3⟩ = 1 / 100 := by
    simp [Dec.val, pow10]
    norm_num
  refine ⟨h1, h2, ?_⟩
  rintro ⟨n, h⟩
  rw [h1, h2] at h
  have h3 : (3 : ℚ) = 2 * n := by linarith
  have h4 : (3 : ℤ) = 2 * n := by exact_mod_cast h3
  omega

/-- C7: for positive price and tick, round_price_to_tick equals
    price minus the Decimal remainder of price by tick, is at most the
    price, and is an integer multiple of the tick; a zero tick returns
    the price unchanged. -/
theorem c7_round_price_to_tick_spec (p t : ℚ) (hp : 0 < p) (ht : 0 < t) :
    round_price_to_tick p t = p - decMod p t ∧
    round_price_to_tick p t ≤ p ∧
    (∃ n : ℤ, round_price_to_tick p t = n * t) ∧
    round_price_to_tick p 0 = p := by
  have hne : t ≠ 0 := ne_of_gt ht
  have hx : (0 : ℚ) ≤ p / t := by positivity
  have htr : truncZ (p / t) = ⌊p / t⌋ := by simp [truncZ, hx]
  have hrpt : round_price_to_tick p t = ⌊p / t⌋ * t := by
    simp [round_price_to_tick, hne, htr]
  refine ⟨?_, ?_, ⟨⌊p / t⌋, hrpt⟩, by simp [round_price_to_tick]⟩
  · rw [hrpt]
    simp only [decMod, htr]
    ring
  · rw [hrpt]
    have h1 : (⌊p / t⌋ : ℚ) ≤ p / t := Int.floor_le _
    calc (⌊p / t⌋ : ℚ) * t ≤ p / t * t := mul_le_mul_of_nonneg_right h1 (le_of_lt ht)
      _ = p := div_mul_cancel₀ p hne

theorem c7_witness :
    round_price_to_tick 7 2 = 7 - decMod 7 2 ∧
    round_price_to_tick 7 2 ≤ 7 ∧
    (∃ n : ℤ, round_price_to_tick 7 2 = n * 2) ∧
    round_price_to_tick 7 0 = 7 :=
  c7_round_price_to_tick_spec 7 2 (by norm_num) (by norm_num)

/-- C6: the stop validator passes for BUY exactly when the stop price
    exceeds current plus the buffer and for SELL exactly when it is
    below current minus the buffer, the buffer being the tick when
    positive and 0.0001 when the tick is zero; a stop at the current
    price fails on both sides, and a stop two ticks beyond passes. -/
theorem c6_validate_stop_vs_market_spec (stop c t : ℚ) (ht : 0 ≤ t) :
    (0 < t →
      ((validateStopVsMarket Side.BUY stop c t = true) ↔ c + t < stop) ∧
      ((validateStopVsMarket Side.SELL stop c t = true) ↔ stop < c - t)) ∧
    ((validateStopVsMarket Side.BUY stop c 0 = true) ↔ c + 1 / 10000 < stop) ∧
    ((validateStopVsMarket Side.SELL stop c 0 = true) ↔ stop < c - 1 / 10000) ∧
    validateStopVsMarket Side.BUY c c t = false ∧
    validateStopVsMarket Side.SELL c c t = false ∧
    (0 < t →
      validateStopVsMarket Side.BUY (c + 2 * t) c t = true ∧
      validateStopVsMarket Side.SELL (c - 2 * t) c t = true) := by
  refine ⟨?_, ?_, ?_, ?_, ?_, ?_⟩
  · intro h0
    have hne : t ≠ 0 := ne_of_gt h0
    constructor <;> simp [validateStopVsMarket, hne]
  · simp [validateStopVsMarket]
  · simp [validateStopVsMarket]
  · by_cases h : t = 0
    · subst h
      simp [validateStopVsMarket]
    · simp [validateStopVsMarket, h]
      have h0 : 0 < t := lt_of_le_of_ne ht (Ne.symm h)
      linarith
  · by_cases h : t = 0
    · subst h
      simp [validateStopVsMarket]
    · simp [validateStopVsMarket, h]
      have h0 : 0 < t := lt_of_le_of_ne ht (Ne.symm h)
      linarith
  · intro h0
    have hne : t ≠ 0 := ne_of_gt h0
    constructor <;> simp [validateStopVsMarket, hne] <;> linarith

theorem c6_witness :
    (0 < (1 : ℚ) / 10 →
      ((validateStopVsMarket Side.BUY 101 100 (1 / 10) = true) ↔ (100 : ℚ) + 1 / 10 < 101) ∧
      ((validateStopVsMarket Side.SELL 101 100 (1 / 10) = true) ↔ (101 : ℚ) < 100 - 1 / 10)) ∧
    ((validateStopVsMarket Side.BUY 101 100 0 = true) ↔ (100 : ℚ) + 1 / 10000 < 101) ∧
    ((validateStopVsMarket Side.SELL 101 100 0 = true) ↔ (101 : ℚ) < 100 - 1 / 10000) ∧
    validateStopVsMarket Side.BUY 100 100 (1 / 10) = false ∧
    validateStopVsMarket Side.SELL 100 100 (1 / 10) = false ∧
    (0 < (1 : ℚ) / 10 →
      validateStopVsMarket Side.BUY (100 + 2 * (1 / 10)) 100 (1 / 10) = true ∧
      validateStopVsMarket Side.SELL (100 - 2 * (1 / 10)) 100 (1 / 10) = true) :=
  c6_validate_stop_vs_market_spec 101 100 (1 / 10) (by norm_num)

/-- C9: when the requested quantity is strictly below minQty, both the
    market and the limit path submit minQty rounded down to the step,
    which can exceed the requested quantity. -/
theorem c9_min_qty_bump (qty minQty : ℚ) (step : Dec) (h : qty < minQty) :
    market_order_qty qty minQty step = round_down_qty minQty step ∧
    limit_order_qty qty minQty step = round_down_qty minQty step ∧
    (qty < round_down_qty minQty step → qty < market_order_qty qty minQty step) := by
  refine ⟨by simp [market_order_qty, if_pos h], by simp [limit_order_qty, if_pos h], ?_⟩
  intro hlt
  simpa [market_order_qty, if_pos h] using hlt

theorem c9_witness :
    market_order_qty (1 / 1000) (1 / 100) ⟨1, -3⟩ = round_down_qty (1 / 100) ⟨1, -3⟩ ∧
    limit_order_qty (1 / 1000) (1 / 100) ⟨1, -3⟩ = round_down_qty (1 / 100) ⟨1, -3⟩ ∧
    ((1 : ℚ) / 1000 < round_down_qty (1 / 100) ⟨1, -3⟩ →
      (1 : ℚ) / 1000 < market_order_qty (1 / 1000) (1 / 100) ⟨1, -3⟩) :=
  c9_min_qty_bump (1 / 1000) (1 / 100) ⟨1, -3⟩ (by norm_num)

/-- C10: cancel_order raises ValueError, issuing no request, when
    neither id is truthy, and orderId 0 behaves exactly like an absent
    orderId. -/
theorem c10_cancel_order_requires_id (sym : String) (oid : Option Int)
    (coid : Option String) (h1 : truthyIntOpt oid = false)
    (h2 : truthyStrOpt coid = false) :
    cancel_order_params sym oid coid = .error "orderId or clientOrderId required" ∧
    cancel_order_params sym (some 0) coid = cancel_order_params sym none coid := by
  constructor
  · simp [cancel_order_params, h1, h2]
  · simp [cancel_order_params, truthyIntOpt]

theorem c10_witness :
    cancel_order_params "BTCUSDT" (some 0) none =
      .error "orderId or clientOrderId required" ∧
    cancel_order_params "BTCUSDT" (some 0) none = cancel_order_params "BTCUSDT" none none :=
  c10_cancel_order_requires_id "BTCUSDT" (some 0) none (by decide) (by decide)

/-- C8 counterexample: the auth-check command catches a failing body,
    prints AUTH FAILED and returns normally, so the process exits 0,
    not 1 as the claim requires for every subcommand. -/
theorem c8_counterexample :
    exit_auth_check BodyResult.raised = 0 ∧ exit_auth_check BodyResult.raised ≠ 1 := by
  decide

/-- C8 amended: every subcommand except auth-check exits 0 on success
    and 1 on a caught failure; cancel-order exits 2 when neither id
    option is truthy, exits 0 when a caught cancellation failure
    matches the unknown-order test, and 1 on any other caught failure;
    auth-check exits 0 even when its body raises. -/
theorem c8_exit_codes :
    (exit_market BodyResult.ok = 0 ∧ exit_market BodyResult.raised = 1) ∧
    (exit_limit BodyResult.ok = 0 ∧ exit_limit BodyResult.raised = 1) ∧
    (exit_open_orders BodyResult.ok = 0 ∧ exit_open_orders BodyResult.raised = 1) ∧
    (exit_cancel_all BodyResult.ok = 0 ∧ exit_cancel_all BodyResult.raised = 1) ∧
    (exit_inspect_pos BodyResult.ok = 0 ∧ exit_inspect_pos BodyResult.raised = 1) ∧
    (exit_filters BodyResult.ok = 0 ∧ exit_filters BodyResult.raised = 1) ∧
    (exit_oco BodyResult.ok = 0 ∧ exit_oco BodyResult.raised = 1) ∧
    (exit_stop_limit BodyResult.ok = 0 ∧ exit_stop_limit BodyResult.raised = 1) ∧
    (exit_stop_market BodyResult.ok = 0 ∧ exit_stop_market BodyResult.raised = 1) ∧
    (exit_auth_check BodyResult.ok = 0 ∧ exit_auth_check BodyResult.raised = 0) ∧
    (∀ oid coid b, truthyIntOpt oid = false → truthyStrOpt coid = false →
      exit_cancel_order oid coid b = 2) ∧
    (∀ oid coid, truthyIntOpt oid = true ∨ truthyStrOpt coid = true →
      exit_cancel_order oid coid CancelBody.ok = 0 ∧
      exit_cancel_order oid coid CancelBody.raisedKnownGone = 0 ∧
      exit_cancel_order oid coid CancelBody.raisedOther = 1) := by
  refine ⟨by decide, by decide, by decide, by decide, by decide, by decide, by decide,
    by decide, by decide, by decide, ?_, ?_⟩
  · intro oid coid b h1 h2
    simp [exit_cancel_order, h1, h2]
  · intro oid coid h
    rcases h with h | h <;> simp [exit_cancel_order, h]

theorem c8_witness :
    exit_cancel_order none none CancelBody.ok = 2 ∧
    exit_cancel_order (some 7) none CancelBody.raisedOther = 1 := by
  have h := c8_exit_codes
  exact ⟨h.2.2.2.2.2.2.2.2.2.2.1 none none CancelBody.ok rfl rfl,
    (h.2.2.2.2.2.2.2.2.2.2.2 (some 7) none (Or.inl (by decide))).2.2⟩

/-- C5: the slice placement call in execute_twap passes the keyword
    type, which place_order does not accept, so every slice raises
    TypeError before any request, is caught and skipped: for any valid
    parts and interval the run reports expected_slices = parts but
    executed_slices = 0, with no order submitted, against the claim
    (and the docstring of execute_twap) of parts submitted orders of
    total_qty / parts each. -/
theorem c5_twap_submits_nothing (total_qty : ℚ) (parts interval : Int)
    (gatewayOk : Nat → Bool) (h1 : 1 ≤ parts) (h2 : 1 ≤ interval) :
    kwargsBind twap_slice_kwargs = false ∧
    execute_twap total_qty parts interval gatewayOk =
      .ok ⟨0, parts.toNat, total_qty / (parts : ℚ), [], []⟩ := by
  have hk : kwargsBind twap_slice_kwargs = false := by decide
  refine ⟨hk, ?_⟩
  have hp : ¬ parts < 1 := by omega
  have hi : ¬ interval < 1 := by omega
  simp only [execute_twap, if_neg hp, if_neg hi, hk, Bool.false_eq_true, if_false,
    foldl_keep, List.length_nil]

theorem c5_witness :
    kwargsBind twap_slice_kwargs = false ∧
    execute_twap (1 / 50) 10 5 (fun _ => true) =
      .ok ⟨0, (10 : Int).toNat, (1 : ℚ) / 50 / ((10 : Int) : ℚ), [], []⟩ :=
  c5_twap_submits_nothing (1 / 50) 10 5 (fun _ => true) (by norm_num) (by norm_num)

/-- C2: in the race loop, when no earlier iteration saw a fill or a
    timeout, the first iteration observing a fill reports that leg as
    winner and issues exactly one cancellation, targeting the other
    leg.  The take-profit status is checked first, so an iteration
    where both legs are FILLED reports TP.  The cancelRaises flag of
    the decisive step is arbitrary: a raised cancellation is recorded
    and swallowed, and the loop still returns its outcome. -/
theorem c2_race_first_fill_wins (tpId slId : Option Int) (pre : List RaceStep)
    (s : RaceStep) (rest : List RaceStep)
    (hpre : ∀ t ∈ pre, statusFilled t.tpOrder = false ∧
      statusFilled t.slOrder = false ∧ t.timedOut = false) :
    (statusFilled s.tpOrder = true →
      raceLoop tpId slId (pre ++ s :: rest) =
        some ⟨some (LegRole.TP, s.tpOrder), [(slId, s.cancelRaises)]⟩) ∧
    (statusFilled s.tpOrder = false → statusFilled s.slOrder = true →
      raceLoop tpId slId (pre ++ s :: rest) =
        some ⟨some (LegRole.SL, s.slOrder), [(tpId, s.cancelRaises)]⟩) := by
  induction pre with
  | nil =>
    constructor
    · intro h
      simp [raceLoop, h]
    · intro h1 h2
      simp [raceLoop, h1, h2]
  | cons t ts ih =>
    have ht := hpre t (List.mem_cons_self t ts)
    have hrec := ih (fun u hu => hpre u (List.mem_cons_of_mem t hu))
    constructor
    · intro h
      simp only [List.cons_append, raceLoop, ht.1, ht.2.1, ht.2.2, Bool.false_eq_true,
        if_false]
      exact hrec.1 h
    · intro h1 h2
      simp only [List.cons_append, raceLoop, ht.1, ht.2.1, ht.2.2, Bool.false_eq_true,
        if_false]
      exact hrec.2 h1 h2

theorem c2_witness :
    raceLoop (some 11) (some 12)
      [⟨⟨some 11, some "NEW", none, none⟩, ⟨some 12, some "NEW", none, none⟩, false, false⟩,
       ⟨⟨some 11, some "FILLED", none, none⟩, ⟨some 12, some "FILLED", none, none⟩, true, false⟩] =
      some ⟨some (LegRole.TP, ⟨some 11, some "FILLED", none, none⟩), [(some 12, true)]⟩ :=
  (c2_race_first_fill_wins (some 11) (some 12)
    [⟨⟨some 11, some "NEW", none, none⟩, ⟨some 12, some "NEW", none, none⟩, false, false⟩]
    ⟨⟨some 11, some "FILLED", none, none⟩, ⟨some 12, some "FILLED", none, none⟩, true, false⟩
    [] (by decide)).1 (by decide)

/-- C3: in non-detached mode, when the entry poll ends with a
    non-FILLED order, place_oco fails with the entry-not-filled error
    and its trace of exit-leg placement calls is empty. -/
theorem c3_entry_not_filled_no_legs (side : Side) (qty tp_price sl_price : ℚ)
    (entry_type : EntryType) (entry_price : Option ℚ) (env : OcoEnv)
    (step : Dec) (tick : ℚ) (o : OrderView)
    (hq : 0 < qty) (htp : 0 < tp_price) (hsl : 0 < sl_price)
    (hep : ¬ (entry_type = EntryType.LIMIT ∧ entry_price = none))
    (hf : env.filters = some (step, tick))
    (hid : truthyIntOpt env.entryResp.orderId = true)
    (hpoll : pollOrderFilled env.entryPolls = some o)
    (hunfilled : statusFilled o = false) :
    place_oco side qty tp_price sl_price entry_type entry_price false env =
      some ⟨.error OcoError.entryNotFilled, [], []⟩ := by
  have hq2 : ¬ qty ≤ 0 := not_le.mpr hq
  have htp2 : ¬ tp_price ≤ 0 := not_le.mpr htp
  have hsl2 : ¬ sl_price ≤ 0 := not_le.mpr hsl
  simp only [place_oco, if_neg hq2, if_neg htp2, if_neg hsl2, if_neg hep, hf, hid]
  simp [ocoMonitorBranch, hpoll, hunfilled]

theorem c3_witness :
    place_oco Side.BUY (1 / 50) 100 90 EntryType.LIMIT (some 95) false
      ⟨some (⟨1, -3⟩, 1 / 10), ⟨some 5, some "NEW", none, none⟩,
        [(⟨some 5, some "NEW", none, none⟩, true)], 0, false, false,
        ⟨none, none, none, none⟩, ⟨none, none, none, none⟩, []⟩ =
      some ⟨.error OcoError.entryNotFilled, [], []⟩ :=
  c3_entry_not_filled_no_legs Side.BUY (1 / 50) 100 90 EntryType.LIMIT (some 95)
    ⟨some (⟨1, -3⟩, 1 / 10), ⟨some 5, some "NEW", none, none⟩,
      [(⟨some 5, some "NEW", none, none⟩, true)], 0, false, false,
      ⟨none, none, none, none⟩, ⟨none, none, none, none⟩, []⟩
    ⟨1, -3⟩ (1 / 10) ⟨some 5, some "NEW", none, none⟩
    (by norm_num) (by norm_num) (by norm_num) (by simp) rfl (by decide) (by decide)
    (by decide)

theorem placeLeg_quantity (side : Side) (q p : ℚ) (pr rr : Bool) (resp : OrderView) :
    ∀ l ∈ (placeLegWithReduceFallback side q p pr rr resp).2.2, l.quantity = q := by
  intro l hl
  cases pr <;> cases rr <;>
    simp only [placeLegWithReduceFallback, Bool.false_eq_true, if_true, if_false,
      List.mem_cons, List.not_mem_nil, or_false] at hl <;>
    rcases hl with rfl | rfl <;> rfl

theorem ocoMonitorBranch_leg_qty (side : Side) (qd tp sl : ℚ) (step : Dec) (tick : ℚ)
    (env : OcoEnv) (run : OcoRun) (res : OcoResult)
    (h : ocoMonitorBranch side qd tp sl step tick env = some run)
    (hres : run.result = Except.ok res) :
    ∀ l ∈ run.legCalls, l.quantity = round_down_qty (executedOrFallback res.entry qd) step := by
  unfold ocoMonitorBranch at h
  split at h
  · exact absurd h (by simp)
  next entry_final hpoll =>
    split at h
    · obtain rfl := (Option.some.inj h)
      simp at hres
    · dsimp only at h
      split at h
      · exact absurd h (by simp)
      next out hrace =>
        obtain rfl := (Option.some.inj h)
        obtain rfl : res = _ := (Except.ok.inj hres).symm
        intro l hl
        simp only [List.mem_append] at hl
        rcases hl with hl | hl
        · exact placeLeg_quantity _ _ _ _ _ _ l hl
        · exact placeLeg_quantity _ _ _ _ _ _ l hl

theorem ocoDetachBranch_leg_qty (side : Side) (qd tp sl tick : ℚ) (env : OcoEnv)
    (er : OrderView) :
    ∀ l ∈ (ocoDetachBranch side qd tp sl tick env er).legCalls, l.quantity = qd := by
  intro l hl
  simp only [ocoDetachBranch, List.mem_append] at hl
  rcases hl with hl | hl <;> exact placeLeg_quantity _ _ _ _ _ _ l hl

/-- C1 counterexample: with detach = true and an entry response whose
    executedQty 0.01 is below the requested 0.02, both exit legs are
    placed with the quantized requested quantity 0.02, not with the
    rounded executed quantity 0.01 the claim requires on every path. -/
theorem c1_counterexample :
    place_oco Side.BUY (1 / 50) 100 90 EntryType.MARKET none true
      ⟨some (⟨1, -3⟩, 1 / 10), ⟨some 7, some "NEW", some (1 / 100), some (1 / 50)⟩, [], 0,
        false, false, ⟨some 8, some "NEW", none, none⟩, ⟨some 9, some "NEW", none, none⟩, []⟩ =
      some ⟨.ok ⟨⟨some 7, some "NEW", some (1 / 100), some (1 / 50)⟩,
            ⟨some 8, some "NEW", none, none⟩, ⟨some 9, some "NEW", none, none⟩, none, true⟩,
        [⟨Side.SELL, 1 / 50, 100, false⟩, ⟨Side.SELL, 1 / 50, 90, false⟩], []⟩ ∧
    (1 : ℚ) / 50 ≠
      round_down_qty (executedOrFallback
        ⟨some 7, some "NEW", some (1 / 100), some (1 / 50)⟩ (1 / 50)) ⟨1, -3⟩ := by
  constructor
  · simp [place_oco, ocoDetachBranch, placeLegWithReduceFallback, round_down_qty,
      round_price_to_tick, truncZ, pow10, Dec.val, truthyIntOpt, Side.opposite]
    norm_num
  · have h : round_down_qty (executedOrFallback
        ⟨some 7, some "NEW", some (1 / 100), some (1 / 50)⟩ (1 / 50)) ⟨1, -3⟩ = 1 / 100 := by
      simp [executedOrFallback, round_down_qty, truncZ, pow10, Dec.val]
      norm_num
    rw [h]
    norm_num

/-- C1 amended: on the non-detached path, whatever the entry type
    (LIMIT entries carrying the entry price the code demands), every
    submitted exit leg has quantity round_down_qty applied to the
    executed entry quantity, with the fallback chain executedQty,
    origQty, then the quantized requested quantity; on the detach path
    every exit leg instead carries the quantized requested quantity,
    ignoring any reported executed quantity. -/
theorem c1_exit_leg_quantity (side : Side) (qty tp_price sl_price : ℚ)
    (entry_type : EntryType) (entry_price : Option ℚ) (env : OcoEnv)
    (step : Dec) (tick : ℚ)
    (hq : 0 < qty) (htp : 0 < tp_price) (hsl : 0 < sl_price)
    (hep : ¬ (entry_type = EntryType.LIMIT ∧ entry_price = none))
    (hf : env.filters = some (step, tick))
    (hid : truthyIntOpt env.entryResp.orderId = true) :
    (∀ run res,
      place_oco side qty tp_price sl_price entry_type entry_price false env = some run →
      run.result = Except.ok res →
      ∀ l ∈ run.legCalls,
        l.quantity =
          round_down_qty (executedOrFallback res.entry (round_down_qty qty step)) step) ∧
    (∀ run,
      place_oco side qty tp_price sl_price entry_type entry_price true env = some run →
      ∀ l ∈ run.legCalls, l.quantity = round_down_qty qty step) := by
  have hq2 : ¬ qty ≤ 0 := not_le.mpr hq
  have htp2 : ¬ tp_price ≤ 0 := not_le.mpr htp
  have hsl2 : ¬ sl_price ≤ 0 := not_le.mpr hsl
  constructor
  · intro run res hrun hres
    simp [place_oco, hq2, htp2, hsl2, hep, hf, hid] at hrun
    exact ocoMonitorBranch_leg_qty _ _ _ _ _ _ _ _ _ hrun hres
  · intro run hrun
    simp [place_oco, hq2, htp2, hsl2, hep, hf, hid] at hrun
    subst hrun
    exact ocoDetachBranch_leg_qty _ _ _ _ _ _ _

theorem c1_witness :
    LegReq.quantity ⟨Side.SELL, 2, 100, false⟩ = round_down_qty 2 ⟨1, -3⟩ := by
  have h := c1_exit_leg_quantity Side.BUY 2 100 90 EntryType.LIMIT (some 95)
    ⟨some (⟨1, -3⟩, 1 / 10), ⟨some 7, some "NEW", none, none⟩, [], 0, false, false,
      ⟨some 8, some "NEW", none, none⟩, ⟨some 9, some "NEW", none, none⟩, []⟩
    ⟨1, -3⟩ (1 / 10) (by norm_num) (by norm_num) (by norm_num) (by simp) rfl (by decide)
  refine h.2
    ⟨.ok ⟨⟨some 7, some "NEW", none, none⟩, ⟨some 8, some "NEW", none, none⟩,
        ⟨some 9, some "NEW", none, none⟩, none, true⟩,
      [⟨Side.SELL, 2, 100, false⟩, ⟨Side.SELL, 2, 90, false⟩], []⟩
    ?_ ⟨Side.SELL, 2, 100, false⟩ (List.mem_cons_self _ _)
  simp [place_oco, ocoDetachBranch, placeLegWithReduceFallback, round_down_qty,
    round_price_to_tick, truncZ, pow10, Dec.val, truthyIntOpt, Side.opposite]
  norm_num
